import Mathlib

set_option maxRecDepth 4000

/-!
Shallow embedding of the level-geometry parsing pipeline of
`ExoMapVisualizer/src/main.rs`.

Scope of the embedding:
* The parsing core (`get_pair`, `get_metadata`, `get_polygon_point`,
  `get_polygon`, `get_polygons`, `read_files`) is embedded definition by
  definition, keeping the source's names.
* Rust panics are modelled as `Except ParseError` errors carrying the exact
  panic message that the source formats; the error constructors follow the
  spec's taxonomy (FormatError / ConversionError / StructureError), mapping
  each panic site to its category.
* `f32` values are modelled as exact decimal fractions (`Dec`, an integer
  numerator over a power of ten).  The textual forms `inf`/`infinity`/`NaN`
  are outside the model, and the model does not round the decimal to the
  nearest binary `f32`: the value theorems therefore carry an
  exact-representability hypothesis (`f32Exact`) confining them to decimals
  that are themselves `f32` values, where the model's number and the
  program's agree; the concrete inputs used below are all exactly
  representable.
* In the source's `-float_pair.1 as i32`, Rust's unary minus binds tighter
  than `as`: the `f32` is negated first (an exact operation, `Dec.neg`) and
  the saturating cast applies to the negated value.
* Rust's `as i32` float-to-integer cast saturates at the i32 bounds
  (`as_i32`); i32 addition is modelled with two's-complement wrap-around
  (`wrap32`, the release-build overflow semantics; debug builds panic on
  overflow, and every theorem below that concerns sums carries in-range
  hypotheses under which the two semantics agree and equal plain integer
  addition).
* Filesystem access (`read_lines`, `ensure_dir`, `ensure_file`) is out of
  scope: functions receive file contents as the list of text lines that
  Rust's `str::lines` would produce, and `read_files` receives the two
  files' line lists directly.  Path strings are still threaded through for
  the diagnostic messages (`Path::join` is modelled with a `/` separator).
-/

/-- Error taxonomy of the spec, each constructor carrying the panic message
the Rust source formats at the corresponding panic site. -/
inductive ParseError where
  | formatError (msg : String)
  | conversionError (msg : String)
  | structureError (msg : String)
deriving DecidableEq, Repr

deriving instance DecidableEq for Except

/-- Screen-space point, embedding `sdl2::rect::Point` (two i32 coordinates,
modelled as unbounded integers; the arithmetic producing them is wrapped to
the i32 range before construction, see `wrap32`). -/
structure Point where
  x : Int
  y : Int
deriving DecidableEq, Repr

/-- Core of the split model: scan the character list left to right, cutting at
each leftmost non-overlapping occurrence of the separator `c0 :: sep`.
Returns the first segment and the list of remaining segments, so the overall
result is nonempty by construction, as Rust's `str::split` is.  The fuel
argument only makes the recursion structural; `fuel = cs.length` always
suffices because each step consumes at least one character. -/
def splitSepCore (c0 : Char) (sep : List Char) : Nat → List Char → List Char × List (List Char)
  | _, [] => ([], [])
  | 0, cs => (cs, [])
  | fuel + 1, x :: xs =>
    if x = c0 ∧ sep.isPrefixOf xs then
      let r := splitSepCore c0 sep fuel (xs.drop sep.length)
      ([], r.1 :: r.2)
    else
      let r := splitSepCore c0 sep fuel xs
      (x :: r.1, r.2)

/-- Model of Rust's `str::split` collected into a vector, for a nonempty
separator pattern (the source only splits on `", "` and `"), ("`). -/
def rustSplit (s sep : String) : List String :=
  match sep.data with
  | [] => [s]
  | c0 :: rest =>
    let r := splitSepCore c0 rest s.data.length s.data
    String.mk r.1 :: r.2.map String.mk

/-- Model of Rust's `str::replace(pat, "")` for the single-character patterns
`"("` and `")"` used by `get_polygon`: every occurrence of the character is
removed. -/
def removeChar (c : Char) (s : String) : String :=
  String.mk (s.data.filter (fun x => x ≠ c))

/-- Numeric value of a list of ASCII digits, most significant first. -/
def digitsToNat (cs : List Char) : Nat :=
  cs.foldl (fun a c => a * 10 + (c.toNat - 48)) 0

/-- Whether every character of the list is an ASCII digit. -/
def allDigits (cs : List Char) : Bool :=
  cs.all (fun c => c.isDigit)

/-- Model of `str::parse::<u32>`: an optional leading plus sign, then one or
more ASCII digits, with the value inside the u32 range; anything else
(including out-of-range values) fails. -/
def parseU32 (s : String) : Option Nat :=
  let cs := match s.data with
    | '+' :: rest => rest
    | cs => cs
  if cs ≠ [] ∧ allDigits cs = true ∧ digitsToNat cs < 2 ^ 32 then
    some (digitsToNat cs)
  else none

/-- Model of `str::parse::<i32>`: an optional leading sign, then one or more
ASCII digits, with the value inside the i32 range `[-2^31, 2^31 - 1]`. -/
def parseI32 (s : String) : Option Int :=
  match s.data with
  | '-' :: rest =>
    if rest ≠ [] ∧ allDigits rest = true ∧ digitsToNat rest ≤ 2 ^ 31 then
      some (-(digitsToNat rest : Int))
    else none
  | '+' :: rest =>
    if rest ≠ [] ∧ allDigits rest = true ∧ digitsToNat rest < 2 ^ 31 then
      some ((digitsToNat rest : Int))
    else none
  | cs =>
    if cs ≠ [] ∧ allDigits cs = true ∧ digitsToNat cs < 2 ^ 31 then
      some ((digitsToNat cs : Int))
    else none

/-- Exact decimal fraction `num / 10 ^ exp`, the model of a parsed `f32`
value (see the file header for the model's scope). -/
structure Dec where
  num : Int
  exp : Nat
deriving DecidableEq, Repr

/-- Truncation of the decimal fraction toward zero, the mathematical content
of Rust's `as i32` cast before saturation (`Int.tdiv` is T-division). -/
def Dec.trunc (d : Dec) : Int :=
  d.num.tdiv ((10 : Int) ^ d.exp)

/-- Negation of the decimal fraction.  Negation of an `f32` is exact, so
this is the model of Rust's unary minus on the parsed float. -/
def Dec.neg (d : Dec) : Dec :=
  ⟨-d.num, d.exp⟩

/-- The decimal value `num / 10 ^ exp` is exactly representable as a binary
`f32`: it equals `m * 2 ^ (k - 149)` for a significand `|m| < 2 ^ 24` and
`k ≤ 253` (covering the subnormals at `k = 0` up to the largest finite
exponent at `k = 253`).  Rust's `parse::<f32>` rounds the decimal to the
nearest `f32`, so exactly on such values the exact-decimal model and the
program parse the same number; the value theorems below carry this as a
hypothesis. -/
def f32Exact (d : Dec) : Prop :=
  ∃ (m : Int) (k : Nat), m.natAbs < 2 ^ 24 ∧ k ≤ 253 ∧
    d.num * 2 ^ 149 = m * 2 ^ k * 10 ^ d.exp

/-- Split a character list at the first character satisfying `p`; `none`
when no character does. -/
def splitAtFirst (p : Char → Bool) : List Char → List Char × Option (List Char)
  | [] => ([], none)
  | c :: cs =>
    if p c then ([], some cs)
    else
      let r := splitAtFirst p cs
      (c :: r.1, r.2)

/-- Mantissa of a float literal: `Digit+`, `Digit+ '.' Digit*` or
`Digit* '.' Digit+`.  Returns the digit value with the fraction scaled in
(`digits of ip ++ fp`) together with the fraction length, so the mantissa's
value is `fst / 10 ^ snd`. -/
def parseMantissa (cs : List Char) : Option (Nat × Nat) :=
  match splitAtFirst (fun c => c = '.') cs with
  | (ip, none) =>
    if ip ≠ [] ∧ allDigits ip = true then some (digitsToNat ip, 0) else none
  | (ip, some fp) =>
    if allDigits ip = true ∧ allDigits fp = true ∧ (ip ≠ [] ∨ fp ≠ []) then
      some (digitsToNat (ip ++ fp), fp.length)
    else none

/-- Exponent of a float literal after the `e`/`E` marker: an optional sign
then one or more digits. -/
def parseExpPart (cs : List Char) : Option Int :=
  let sd : Int × List Char := match cs with
    | '-' :: rest => (-1, rest)
    | '+' :: rest => (1, rest)
    | rest => (1, rest)
  if sd.2 ≠ [] ∧ allDigits sd.2 = true then some (sd.1 * (digitsToNat sd.2 : Int))
  else none

/-- Combine sign, mantissa and decimal exponent into a `Dec` value. -/
def applyExp (m : Nat × Nat) (sgn : Int) (e : Int) : Dec :=
  if 0 ≤ e then ⟨sgn * (m.1 : Int) * 10 ^ e.toNat, m.2⟩
  else ⟨sgn * (m.1 : Int), m.2 + (-e).toNat⟩

/-- Model of `str::parse::<f32>` as an exact decimal fraction: an optional
leading sign, a mantissa, and an optional `e`/`E` exponent, following the
grammar documented for Rust's float `FromStr` (the `inf`/`infinity`/`NaN`
forms and rounding to binary are outside the model). -/
def parseF32 (s : String) : Option Dec :=
  let sc : Int × List Char := match s.data with
    | '-' :: rest => (-1, rest)
    | '+' :: rest => (1, rest)
    | rest => (1, rest)
  match splitAtFirst (fun c => c = 'e' ∨ c = 'E') sc.2 with
  | (mcs, none) => (parseMantissa mcs).map (fun m => applyExp m sc.1 0)
  | (mcs, some ecs) =>
    match parseMantissa mcs, parseExpPart ecs with
    | some m, some e => some (applyExp m sc.1 e)
    | _, _ => none

/-- Embedding of `get_pair`: split the string on `", "`, fail with the
caller's FormatError message unless that yields exactly two segments, then
parse each segment, failing with a ConversionError naming the side, the
offending segment and the Rust type name.  The Rust generic `T: FromStr` is
embedded by passing the parse function and the value of
`any::type_name::<T>()` explicitly; the x segment is parsed (and can fail)
before the y segment, as in the source. -/
def get_pair {T : Type} (parse : String → Option T) (type_name : String)
    (string : String) (list_error : String) (purpose_string : String) :
    Except ParseError (T × T) :=
  match rustSplit string ", " with
  | [a, b] =>
    match parse a with
    | none => .error (.conversionError
        ("The x " ++ purpose_string ++ " \"" ++ a ++ "\" is not a valid " ++ type_name ++ "."))
    | some x =>
      match parse b with
      | none => .error (.conversionError
          ("The y " ++ purpose_string ++ " \"" ++ b ++ "\" is not a valid " ++ type_name ++ "."))
      | some y => .ok (x, y)
  | _ => .error (.formatError list_error)

/-- Embedding of `get_metadata`: the file contents arrive as the list of
text lines (`read_lines` is filesystem glue, out of scope); require exactly
two lines, then parse line 1 as a u32 size pair and line 2 as an i32 offset
pair, with the source's panic messages. -/
def get_metadata (path : String) (info : List String) :
    Except ParseError ((Nat × Nat) × (Int × Int)) :=
  if info.length ≠ 2 then
    .error (.structureError ("`" ++ path ++ "` does not have exactly two lines."))
  else
    match get_pair parseU32 "u32" (info.getD 0 "")
        ("The size parameter (first line in `" ++ path ++ "`) is not a pair \"x, y\".")
        "size" with
    | .error e => .error e
    | .ok size_pair =>
      match get_pair parseI32 "i32" (info.getD 1 "")
          ("The offset parameter (second line in `" ++ path ++ "`) is not a pair \"x, y\".")
          "offset" with
      | .error e => .error e
      | .ok offset_pair => .ok (size_pair, offset_pair)

/-- Two's-complement wrap-around into the i32 range `[-2^31, 2^31)`,
modelling release-build overflow of the i32 additions in
`get_polygon_point` (debug builds panic on overflow; on in-range sums both
agree with plain integer addition). -/
def wrap32 (n : Int) : Int :=
  (n + 2 ^ 31) % 2 ^ 32 - 2 ^ 31

/-- Rust's `as i32` cast of a float, on the decimal model: truncate toward
zero, saturating at the i32 bounds (a NaN input, which the cast sends to 0,
does not arise because `parseF32` never produces one). -/
def as_i32 (d : Dec) : Int :=
  if d.trunc < -(2 ^ 31) then -(2 ^ 31)
  else if 2 ^ 31 - 1 < d.trunc then 2 ^ 31 - 1
  else d.trunc

/-- Embedding of `get_polygon_point`: parse the token as an f32 pair, then
build the point `((x as i32) + offset.0, ((-y) as i32) + offset.1)`.  In the
Rust expression `-float_pair.1 as i32` the unary minus binds tighter than
`as`, so the float is negated first (exactly, `Dec.neg`) and the saturating
cast is applied to the negated value. -/
def get_polygon_point (string : String) (offset_pair : Int × Int) :
    Except ParseError Point :=
  match get_pair parseF32 "f32" string
      ("A polygon contains an invalid pair \"" ++ string ++ "\"") "coordinate" with
  | .error e => .error e
  | .ok float_pair =>
    .ok ⟨wrap32 (as_i32 float_pair.1 + offset_pair.1),
         wrap32 (as_i32 float_pair.2.neg + offset_pair.2)⟩

/-- Segment-fixing stage of `get_polygon`: split the line on `"), ("`, then
replay the source's two writes in order — `point_strings[0] = fixed_first`
followed by `point_strings[last_index] = fixed_last`, where both fixed
strings are computed from the original segments.  When the line has a single
segment the second write overwrites the first, so only the `")"`-stripped
copy survives (the source's behaviour). -/
def fixedSegments (string : String) : List String :=
  let point_strings := rustSplit string "), ("
  let last_index := point_strings.length - 1
  let fixed_first := removeChar '(' (point_strings.getD 0 "")
  let fixed_last := removeChar ')' (point_strings.getD last_index "")
  (point_strings.set 0 fixed_first).set last_index fixed_last

/-- Left-to-right effectful map over `Except`, the model of the source's
in-order iterator `map ... collect()` whose closure can panic: the first
failing element aborts with its error. -/
def mapExcept {α β : Type} (f : α → Except ParseError β) :
    List α → Except ParseError (List β)
  | [] => .ok []
  | a :: rest =>
    match f a with
    | .error e => .error e
    | .ok b =>
      match mapExcept f rest with
      | .error e => .error e
      | .ok bs => .ok (b :: bs)

/-- Embedding of `get_polygon`: fix the segments of the line, then transform
them in order with `get_polygon_point`. -/
def get_polygon (string : String) (offset_pair : Int × Int) :
    Except ParseError (List Point) :=
  mapExcept (fun x => get_polygon_point x offset_pair) (fixedSegments string)

/-- Embedding of `get_polygons`: the polygon file arrives as its list of
text lines, each parsed in file order by `get_polygon`. -/
def get_polygons (lines : List String) (offset_pair : Int × Int) :
    Except ParseError (List (List Point)) :=
  mapExcept (fun x => get_polygon x offset_pair) lines

/-- Embedding of `read_files`: the two files' contents arrive as line lists
(the path-existence checks are out-of-scope collaborators); read the
metadata, then parse every polygon line with the metadata's offset, and
return the Level `(polygons, size)`. -/
def read_files (directory : String) (info polys : List String) :
    Except ParseError (List (List Point) × (Nat × Nat)) :=
  match get_metadata (directory ++ "/collision_info.txt") info with
  | .error e => .error e
  | .ok md =>
    match get_polygons polys md.2 with
    | .error e => .error e
    | .ok polygon_list => .ok (polygon_list, md.1)

/-- A successful `mapExcept` produces as many outputs as inputs. -/
theorem mapExcept_ok_length {α β : Type} (f : α → Except ParseError β) :
    ∀ (l : List α) (ys : List β), mapExcept f l = .ok ys → ys.length = l.length := by
  intro l
  induction l with
  | nil =>
    intro ys h
    simp only [mapExcept] at h
    injection h with h
    subst h
    rfl
  | cons a rest ih =>
    intro ys h
    simp only [mapExcept] at h
    cases hfa : f a with
    | error e => rw [hfa] at h; cases h
    | ok b =>
      rw [hfa] at h
      cases hrest : mapExcept f rest with
      | error e => rw [hrest] at h; cases h
      | ok bs =>
        rw [hrest] at h
        injection h with h
        subst h
        simp [ih bs hrest]

/-- A successful `mapExcept` maps the i-th input to the i-th output: the
processing is positional, in left-to-right order. -/
theorem mapExcept_ok_getD {α β : Type} (f : α → Except ParseError β) (da : α) (db : β) :
    ∀ (l : List α) (ys : List β), mapExcept f l = .ok ys →
      ∀ i, i < ys.length → f (l.getD i da) = .ok (ys.getD i db) := by
  intro l
  induction l with
  | nil =>
    intro ys h i hi
    simp only [mapExcept] at h
    injection h with h
    subst h
    simp at hi
  | cons a rest ih =>
    intro ys h i hi
    simp only [mapExcept] at h
    cases hfa : f a with
    | error e => rw [hfa] at h; cases h
    | ok b =>
      rw [hfa] at h
      cases hrest : mapExcept f rest with
      | error e => rw [hrest] at h; cases h
      | ok bs =>
        rw [hrest] at h
        injection h with h
        subst h
        cases i with
        | zero => simpa using hfa
        | succ j =>
          simp only [List.getD_cons_succ]
          exact ih bs hrest j (by simpa using hi)

/-- Every output of a successful `mapExcept` is the image of some input. -/
theorem mapExcept_ok_mem {α β : Type} (f : α → Except ParseError β) :
    ∀ (l : List α) (ys : List β), mapExcept f l = .ok ys →
      ∀ y ∈ ys, ∃ x ∈ l, f x = .ok y := by
  intro l
  induction l with
  | nil =>
    intro ys h y hy
    simp only [mapExcept] at h
    injection h with h
    subst h
    simp at hy
  | cons a rest ih =>
    intro ys h y hy
    simp only [mapExcept] at h
    cases hfa : f a with
    | error e => rw [hfa] at h; cases h
    | ok b =>
      rw [hfa] at h
      cases hrest : mapExcept f rest with
      | error e => rw [hrest] at h; cases h
      | ok bs =>
        rw [hrest] at h
        injection h with h
        subst h
        rcases List.mem_cons.mp hy with h1 | h2
        · exact ⟨a, List.mem_cons_self a rest, by rw [h1]; exact hfa⟩
        · obtain ⟨x, hx, hfx⟩ := ih bs hrest y h2
          exact ⟨x, List.mem_cons_of_mem a hx, hfx⟩

/-- Wrapping is the identity on the i32 range. -/
theorem wrap32_eq_self (n : Int) (h1 : -(2 ^ 31) ≤ n) (h2 : n ≤ 2 ^ 31 - 1) :
    wrap32 n = n := by
  unfold wrap32
  omega

/-- The saturating cast is plain truncation when the truncation fits in i32. -/
theorem as_i32_eq_trunc (d : Dec) (h1 : -(2 ^ 31) ≤ d.trunc) (h2 : d.trunc ≤ 2 ^ 31 - 1) :
    as_i32 d = d.trunc := by
  unfold as_i32
  split_ifs <;> omega

/-- The split model never produces an empty segment list, as Rust's
`str::split` never does. -/
theorem rustSplit_ne_nil (s sep : String) : rustSplit s sep ≠ [] := by
  cases h : sep.data <;> simp [rustSplit, h]

/-- The fixed segment list of a polygon line is never empty. -/
theorem fixedSegments_ne_nil (s : String) : fixedSegments s ≠ [] := by
  intro h
  apply rustSplit_ne_nil s "), ("
  have hl := congrArg List.length h
  simp only [fixedSegments, List.length_set, List.length_nil] at hl
  exact List.length_eq_zero.mp hl

/-- Truncation toward zero commutes with negation (T-division negates with
its dividend). -/
theorem Dec.trunc_neg (d : Dec) : d.neg.trunc = -d.trunc := by
  simp [Dec.trunc, Dec.neg, Int.neg_tdiv]

/-- Core transform lemma: when the token parses as the pair (x, y), and
trunc x, -trunc y and both result sums all fit in i32, the transformer
returns exactly `(trunc x + dx, -trunc y + dy)`.  The bound is on
`-trunc y` rather than `trunc y` because the source negates the float
before the saturating cast. -/
theorem get_polygon_point_ok_of_fits (string : String) (off : Int × Int) (x y : Dec)
    (h : get_pair parseF32 "f32" string
        ("A polygon contains an invalid pair \"" ++ string ++ "\"") "coordinate" = .ok (x, y))
    (hx1 : -(2 ^ 31) ≤ x.trunc) (hx2 : x.trunc ≤ 2 ^ 31 - 1)
    (hyn1 : -(2 ^ 31) ≤ -y.trunc) (hyn2 : -y.trunc ≤ 2 ^ 31 - 1)
    (hsx1 : -(2 ^ 31) ≤ x.trunc + off.1) (hsx2 : x.trunc + off.1 ≤ 2 ^ 31 - 1)
    (hsy1 : -(2 ^ 31) ≤ -y.trunc + off.2) (hsy2 : -y.trunc + off.2 ≤ 2 ^ 31 - 1) :
    get_polygon_point string off = .ok ⟨x.trunc + off.1, -y.trunc + off.2⟩ := by
  unfold get_polygon_point
  rw [h]
  have hyt : y.neg.trunc = -y.trunc := Dec.trunc_neg y
  simp only [as_i32_eq_trunc x hx1 hx2,
    as_i32_eq_trunc y.neg (by rw [hyt]; exact hyn1) (by rw [hyt]; exact hyn2), hyt]
  rw [wrap32_eq_self _ hsx1 hsx2, wrap32_eq_self _ hsy1 hsy2]

/-- C1 (amended): for every coordinate token that parses as the
floating-point pair (x, y) — with both parsed decimals exactly
representable as f32, so the exact-decimal model and the program parse the
same numbers — and every origin offset (dx, dy), provided trunc x,
-trunc y and the two resulting sums all lie within the i32 range, the
polygon point transformer returns the integer point
`(trunc x + dx, -trunc y + dy)` where trunc is truncation toward zero; in
particular with offset (0, 0) it returns `(trunc x, -trunc y)`.  Outside
those ranges the saturating `as i32` cast — applied to x and to the
negated y — breaks the formula, see the counterexample. -/
theorem c1_point_transform (string : String) (off : Int × Int) (x y : Dec)
    (h : get_pair parseF32 "f32" string
        ("A polygon contains an invalid pair \"" ++ string ++ "\"") "coordinate" = .ok (x, y))
    (hex : f32Exact x) (hey : f32Exact y)
    (hx1 : -(2 ^ 31) ≤ x.trunc) (hx2 : x.trunc ≤ 2 ^ 31 - 1)
    (hyn1 : -(2 ^ 31) ≤ -y.trunc) (hyn2 : -y.trunc ≤ 2 ^ 31 - 1)
    (hsx1 : -(2 ^ 31) ≤ x.trunc + off.1) (hsx2 : x.trunc + off.1 ≤ 2 ^ 31 - 1)
    (hsy1 : -(2 ^ 31) ≤ -y.trunc + off.2) (hsy2 : -y.trunc + off.2 ≤ 2 ^ 31 - 1) :
    get_polygon_point string off = .ok ⟨x.trunc + off.1, -y.trunc + off.2⟩ :=
  get_polygon_point_ok_of_fits string off x y h hx1 hx2 hyn1 hyn2 hsx1 hsx2 hsy1 hsy2

/-- Witness for C1: the token "1.5, -2.5" parses as (1.5, -2.5) — both
values exactly f32 (1.5 = 3·2⁻¹, -2.5 = -5·2⁻¹) — whose truncations are 1
and -2, so with offset (3, 4) the transformer returns (1 + 3, 2 + 4) =
(4, 6). -/
theorem c1_point_transform_witness :
    get_polygon_point "1.5, -2.5" (3, 4) = .ok ⟨4, 6⟩ := by
  have h := c1_point_transform "1.5, -2.5" (3, 4) ⟨15, 1⟩ ⟨-25, 1⟩ (by decide)
    ⟨3, 148, by decide, by decide, by decide⟩ ⟨-5, 148, by decide, by decide, by decide⟩
    (by decide) (by decide) (by decide) (by decide) (by decide) (by decide)
    (by decide) (by decide)
  rw [h]
  decide

/-- Counterexample to C1 as stated: the token "2147483648, 0" parses as the
pair (2147483648, 0) — the value 2³¹ is exactly representable in f32 — and
trunc(2147483648) = 2147483648, yet with offset (0, 0) the transformer
returns x = 2147483647, not trunc(x) + 0: the `as i32` cast saturates at
the i32 maximum. -/
theorem c1_point_transform_cex :
    get_pair parseF32 "f32" "2147483648, 0"
        ("A polygon contains an invalid pair \"" ++ "2147483648, 0" ++ "\"") "coordinate" =
      .ok (⟨2147483648, 0⟩, ⟨0, 0⟩) ∧
    f32Exact ⟨2147483648, 0⟩ ∧
    Dec.trunc ⟨2147483648, 0⟩ + 0 = 2147483648 ∧
    get_polygon_point "2147483648, 0" (0, 0) = .ok ⟨2147483647, 0⟩ ∧
    (2147483647 : Int) ≠ 2147483648 :=
  ⟨by decide, ⟨1, 180, by decide, by decide, by decide⟩, by decide, by decide, by decide⟩

/-- C2: a successfully parsed polygon line is the transform of its fixed
segments taken in original left-to-right order — the parse keeps one output
point per segment and the i-th point is the transform of the i-th segment —
and concretely the line "(0, 0), (1, 2), (3, 4)" with offset (0, 0) yields
exactly [(0, 0), (1, -2), (3, -4)] in that sequence. -/
theorem c2_polygon_preserves_order :
    get_polygon "(0, 0), (1, 2), (3, 4)" (0, 0) = .ok [⟨0, 0⟩, ⟨1, -2⟩, ⟨3, -4⟩] ∧
    ∀ (string : String) (off : Int × Int) (ps : List Point),
      get_polygon string off = .ok ps →
      ps.length = (fixedSegments string).length ∧
      ∀ i, i < ps.length →
        get_polygon_point ((fixedSegments string).getD i "") off = .ok (ps.getD i ⟨0, 0⟩) := by
  refine ⟨by decide, ?_⟩
  intro string off ps h
  unfold get_polygon at h
  exact ⟨mapExcept_ok_length _ _ _ h, fun i hi => mapExcept_ok_getD _ "" ⟨0, 0⟩ _ _ h i hi⟩

/-- Witness for C2: applying the positional part at the concrete line and
index 1 gives that the second output point is the transform of the second
fixed segment. -/
theorem c2_polygon_preserves_order_witness :
    get_polygon_point ((fixedSegments "(0, 0), (1, 2), (3, 4)").getD 1 "") (0, 0) =
      .ok (([⟨0, 0⟩, ⟨1, -2⟩, ⟨3, -4⟩] : List Point).getD 1 ⟨0, 0⟩) :=
  (c2_polygon_preserves_order.2 "(0, 0), (1, 2), (3, 4)" (0, 0)
    [⟨0, 0⟩, ⟨1, -2⟩, ⟨3, -4⟩] (by decide)).2 1 (by decide)

/-- C3: for every string whose split on ", " yields exactly the two segments
a and b, and every target type whose parse function accepts both segments,
the pair parser succeeds and returns exactly the parsed pair (a, b). -/
theorem c3_get_pair_exact {T : Type} (parse : String → Option T)
    (type_name string list_error purpose_string a b : String) (x y : T)
    (hsplit : rustSplit string ", " = [a, b])
    (hx : parse a = some x) (hy : parse b = some y) :
    get_pair parse type_name string list_error purpose_string = .ok (x, y) := by
  simp only [get_pair, hsplit, hx, hy]

/-- Witness for C3 at the i32 offset line "3, -4": the parser returns the
pair (3, -4). -/
theorem c3_get_pair_exact_witness :
    get_pair parseI32 "i32" "3, -4"
        "The offset parameter (second line in `p`) is not a pair \"x, y\"." "offset" =
      .ok (3, -4) :=
  c3_get_pair_exact parseI32 "i32" "3, -4"
    "The offset parameter (second line in `p`) is not a pair \"x, y\"." "offset"
    "3" "-4" 3 (-4) (by decide) (by decide) (by decide)

/-- C4 (code bug): after splitting on "), (", the code computes both fixed
strings from the original segments and then writes the first before the
last, so on a single-pair line — where first and last coincide — the
")"-stripped copy overwrites the "("-stripped one: the leading "(" is NOT
stripped, the segment stays "(1, 2", and the line fails to parse instead of
yielding the one transformed point.  With two or more segments the stripping
works as the claim says. -/
theorem c4_single_pair_strip_bug :
    fixedSegments "(1, 2), (3, 4)" = ["1, 2", "3, 4"] ∧
    fixedSegments "(1, 2)" = ["(1, 2"] ∧
    parseF32 "(1" = none ∧
    get_polygon "(1, 2)" (0, 0) =
      .error (.conversionError "The x coordinate \"(1\" is not a valid f32.") := by
  decide

/-- C5: the polygon list parser never returns an empty point sequence — a
line with zero parseable segments such as the empty line is rejected with an
error — and every polygon of a successfully loaded level is nonempty, so
indexing its first and last points is in bounds. -/
theorem c5_no_empty_polygon :
    (∀ (string : String) (off : Int × Int) (ps : List Point),
        get_polygon string off = .ok ps → ps ≠ []) ∧
    (∀ (directory : String) (info polys : List String)
        (lvl : List (List Point) × (Nat × Nat)),
        read_files directory info polys = .ok lvl → ∀ p ∈ lvl.1, p ≠ []) ∧
    get_polygon "" (0, 0) = .error (.formatError "A polygon contains an invalid pair \"\"") := by
  have hmain : ∀ (string : String) (off : Int × Int) (ps : List Point),
      get_polygon string off = .ok ps → ps ≠ [] := by
    intro string off ps h hnil
    subst hnil
    unfold get_polygon at h
    have hlen := mapExcept_ok_length _ _ _ h
    simp only [List.length_nil] at hlen
    exact fixedSegments_ne_nil string (List.length_eq_zero.mp hlen.symm)
  refine ⟨hmain, ?_, by decide⟩
  intro directory info polys lvl h p hp
  unfold read_files at h
  split at h
  · cases h
  · rename_i md hm
    split at h
    · cases h
    · rename_i polygon_list hg
      injection h with h
      subst h
      unfold get_polygons at hg
      obtain ⟨line, hline, hok⟩ := mapExcept_ok_mem _ _ _ hg p hp
      exact hmain line md.2 p hok

/-- Witness for C5: the two-pair line "(0, 0), (1, 2)" parses to
[(0, 0), (1, -2)], which is nonempty. -/
theorem c5_no_empty_polygon_witness :
    ([⟨0, 0⟩, ⟨1, -2⟩] : List Point) ≠ [] :=
  c5_no_empty_polygon.1 "(0, 0), (1, 2)" (0, 0) [⟨0, 0⟩, ⟨1, -2⟩] (by decide)

/-- C6 (amended): for every coordinate token that parses as the pair (x, y)
— both parsed decimals exactly representable as f32 — and every offset
(dx, dy), provided trunc x, -trunc y and the two result sums all lie within
the i32 range, subtracting (dx, dy) from the transformed point and negating
the y component recovers exactly `(trunc x, trunc y)`.  Outside those
ranges the saturating cast — applied to x and to the negated y — loses the
truncated value, see the counterexample. -/
theorem c6_transform_inverse (string : String) (off : Int × Int) (x y : Dec) (p : Point)
    (h : get_pair parseF32 "f32" string
        ("A polygon contains an invalid pair \"" ++ string ++ "\"") "coordinate" = .ok (x, y))
    (hex : f32Exact x) (hey : f32Exact y)
    (hx1 : -(2 ^ 31) ≤ x.trunc) (hx2 : x.trunc ≤ 2 ^ 31 - 1)
    (hyn1 : -(2 ^ 31) ≤ -y.trunc) (hyn2 : -y.trunc ≤ 2 ^ 31 - 1)
    (hsx1 : -(2 ^ 31) ≤ x.trunc + off.1) (hsx2 : x.trunc + off.1 ≤ 2 ^ 31 - 1)
    (hsy1 : -(2 ^ 31) ≤ -y.trunc + off.2) (hsy2 : -y.trunc + off.2 ≤ 2 ^ 31 - 1)
    (hp : get_polygon_point string off = .ok p) :
    (p.x - off.1, -(p.y - off.2)) = (x.trunc, y.trunc) := by
  have hq := get_polygon_point_ok_of_fits string off x y h hx1 hx2 hyn1 hyn2
    hsx1 hsx2 hsy1 hsy2
  rw [hp] at hq
  injection hq with hq
  subst hq
  simp only [Prod.mk.injEq]
  constructor <;> ring

/-- Witness for C6: transforming "1.5, -2.5" with offset (3, 4) gives
(4, 6); subtracting the offset and negating y recovers (1, -2), the
truncations of 1.5 and -2.5. -/
theorem c6_transform_inverse_witness :
    (((⟨4, 6⟩ : Point).x - 3, -((⟨4, 6⟩ : Point).y - 4)) =
      (Dec.trunc ⟨15, 1⟩, Dec.trunc ⟨-25, 1⟩)) :=
  c6_transform_inverse "1.5, -2.5" (3, 4) ⟨15, 1⟩ ⟨-25, 1⟩ ⟨4, 6⟩ (by decide)
    ⟨3, 148, by decide, by decide, by decide⟩ ⟨-5, 148, by decide, by decide, by decide⟩
    (by decide) (by decide) (by decide) (by decide) (by decide) (by decide)
    (by decide) (by decide) (by decide)

/-- Counterexample to C6 as stated: the token "0, -2147483648" parses —
-2³¹ is exactly representable in f32 — and trunc(y) = -2147483648; the
source negates the float first, so the cast sees 2147483648.0 and saturates
to 2147483647, the transformer (offset (0, 0)) returns (0, 2147483647), and
undoing offset and flip yields -2147483647, which is not
trunc(y) = -2147483648. -/
theorem c6_transform_inverse_cex :
    parseF32 "-2147483648" = some ⟨-2147483648, 0⟩ ∧
    f32Exact ⟨-2147483648, 0⟩ ∧
    get_polygon_point "0, -2147483648" (0, 0) = .ok ⟨0, 2147483647⟩ ∧
    -((2147483647 : Int) - 0) ≠ Dec.trunc ⟨-2147483648, 0⟩ :=
  ⟨by decide, ⟨-1, 180, by decide, by decide, by decide⟩, by decide, by decide⟩

/-- C7: for every input string whose split on ", " does not yield exactly
two segments, the pair parser fails with a FormatError carrying the caller's
message, and never returns a pair; this holds for every target type. -/
theorem c7_get_pair_format_error {T : Type} (parse : String → Option T)
    (type_name string list_error purpose_string : String)
    (h : (rustSplit string ", ").length ≠ 2) :
    get_pair parse type_name string list_error purpose_string =
      .error (.formatError list_error) := by
  unfold get_pair
  obtain ⟨l, hl⟩ : ∃ l, rustSplit string ", " = l := ⟨_, rfl⟩
  rw [hl] at h ⊢
  match l, h with
  | [], _ => rfl
  | [a], _ => rfl
  | [a, b], h => exact absurd rfl h
  | a :: b :: c :: rest, _ => rfl

/-- Witness for C7: "800 600" has no ", " separator, so parsing it as a u32
pair fails with the FormatError message supplied by the caller. -/
theorem c7_get_pair_format_error_witness :
    get_pair parseU32 "u32" "800 600"
        "The size parameter (first line in `p`) is not a pair \"x, y\"." "size" =
      .error (.formatError "The size parameter (first line in `p`) is not a pair \"x, y\".") :=
  c7_get_pair_format_error parseU32 "u32" "800 600"
    "The size parameter (first line in `p`) is not a pair \"x, y\"." "size" (by decide)

/-- C8: a metadata file whose line count differs from two is rejected with a
StructureError naming the file, whatever the lines contain — no numeric
parsing is reached. -/
theorem c8_metadata_structure_error (path : String) (info : List String)
    (h : info.length ≠ 2) :
    get_metadata path info =
      .error (.structureError ("`" ++ path ++ "` does not have exactly two lines.")) := by
  unfold get_metadata
  rw [if_pos h]

/-- Witness for C8: a one-line metadata file fails with the StructureError
even though its single line is a perfectly well-formed pair. -/
theorem c8_metadata_structure_error_witness :
    get_metadata "levels/collision_info.txt" ["800, 600"] =
      .error (.structureError "`levels/collision_info.txt` does not have exactly two lines.") := by
  have h := c8_metadata_structure_error "levels/collision_info.txt" ["800, 600"] (by decide)
  rw [h]
  decide

/-- C9: with valid metadata, a polygon file with zero lines loads
successfully into a Level with an empty polygon list and exactly the canvas
size parsed from the metadata. -/
theorem c9_zero_polygon_lines (directory : String) (info : List String)
    (size_pair : Nat × Nat) (offset_pair : Int × Int)
    (h : get_metadata (directory ++ "/collision_info.txt") info = .ok (size_pair, offset_pair)) :
    read_files directory info [] = .ok ([], size_pair) := by
  unfold read_files
  rw [h]
  rfl

/-- Witness for C9: metadata "800, 600" / "0, 0" with an empty polygon file
yields the Level ([], (800, 600)). -/
theorem c9_zero_polygon_lines_witness :
    read_files "levels/level1" ["800, 600", "0, 0"] [] = .ok ([], (800, 600)) :=
  c9_zero_polygon_lines "levels/level1" ["800, 600", "0, 0"] (800, 600) (0, 0) (by decide)

/-- C10: when the input splits into exactly the segments a and b, a failing
x segment produces a ConversionError whose message names the x side, the
segment text a and the target type name; and when a parses but b fails, the
message names the y side, the text b and the type name. -/
theorem c10_get_pair_conversion_error {T : Type} (parse : String → Option T)
    (type_name string list_error purpose_string a b : String)
    (hsplit : rustSplit string ", " = [a, b]) :
    (parse a = none →
      get_pair parse type_name string list_error purpose_string =
        .error (.conversionError
          ("The x " ++ purpose_string ++ " \"" ++ a ++ "\" is not a valid " ++ type_name ++ "."))) ∧
    (∀ x : T, parse a = some x → parse b = none →
      get_pair parse type_name string list_error purpose_string =
        .error (.conversionError
          ("The y " ++ purpose_string ++ " \"" ++ b ++ "\" is not a valid " ++ type_name ++ "."))) := by
  constructor
  · intro ha
    simp only [get_pair, hsplit, ha]
  · intro x ha hb
    simp only [get_pair, hsplit, ha, hb]

/-- Witness for C10: the stripped polygon token "abc, 1" fails as an f32
pair with a ConversionError naming the x side, the text "abc" and the type
name f32. -/
theorem c10_get_pair_conversion_error_witness :
    get_pair parseF32 "f32" "abc, 1"
        ("A polygon contains an invalid pair \"" ++ "abc, 1" ++ "\"") "coordinate" =
      .error (.conversionError "The x coordinate \"abc\" is not a valid f32.") := by
  have h := (c10_get_pair_conversion_error parseF32 "f32" "abc, 1"
      ("A polygon contains an invalid pair \"" ++ "abc, 1" ++ "\"") "coordinate" "abc" "1"
      (by decide)).1 (by decide)
  rw [h]
  decide
